import Mathlib

/-!
Verification development for the election-results extraction scripts.

The embedded program is `src/extract_to_json.py`: it scans a PDF page by
page, detects constituency headers in the page text with a regular
expression, parses candidate rows from detected tables, deduplicates
candidates by serial number inside the current constituency, and flushes
each constituency record into the output list when the next header appears
or at the end of the document.

Modelling conventions:
* a table cell is `Option String` (`None` cells are `none`);
* Python `int(s)` / `float(s)` are modelled over ASCII text: `pyInt`
  computes the integer, and a float value is represented by the literal
  text accepted by `float` (no theorem below computes with float
  arithmetic, only with presence or absence of the field);
* a Python exception inside the row parser's `try` block is modelled by
  the whole parser returning `none`, exactly as the `except` clause does;
* `str.strip` / `str.isdigit` / `str.upper` and the regex classes `\s`,
  `\d`, `.` are modelled over the ASCII repertoire.
-/

namespace ElectionExtract

/-- ASCII whitespace, the characters stripped by `str.strip()` and matched
by the regex class `\s`. -/
def isSpaceChar (c : Char) : Bool :=
  c = ' ' || c = '\t' || c = '\n' || c = '\r' || c = '\x0b' || c = '\x0c'

/-- Python `s.strip()`: drop leading and trailing whitespace. -/
def pyStrip (s : String) : String :=
  String.mk (((s.toList.dropWhile isSpaceChar).reverse.dropWhile isSpaceChar).reverse)

/-- Python `s.upper()` on ASCII text. -/
def pyUpper (s : String) : String :=
  String.mk (s.toList.map Char.toUpper)

/-- Python `s.isdigit()` on ASCII text: nonempty and all decimal digits. -/
def pyIsDigit (s : String) : Bool :=
  !s.toList.isEmpty && s.toList.all Char.isDigit

/-- Python `s.replace(",", "")`, applied after a strip as in the source:
`str(x).strip().replace(",", "")`. -/
def stripCommas (s : String) : String :=
  String.mk ((pyStrip s).toList.filter (fun c => c != ','))

/-- Value of a digit string, most significant digit first. -/
def digitsToNat (l : List Char) : Nat :=
  l.foldl (fun n c => 10 * n + (c.toNat - '0'.toNat)) 0

/-- Helper for `pyInt`: the digits of the literal, after the sign. -/
def pyIntDigits (l : List Char) : Option Nat :=
  if !l.isEmpty && l.all Char.isDigit then some (digitsToNat l) else none

/-- Python `int(s)` on ASCII text: strip whitespace, optional sign, a
nonempty run of decimal digits; anything else raises `ValueError`,
modelled as `none`. -/
def pyInt (s : String) : Option Int :=
  match (pyStrip s).toList with
  | '+' :: cs => (pyIntDigits cs).map Int.ofNat
  | '-' :: cs => (pyIntDigits cs).map (fun n => -(Int.ofNat n))
  | cs => (pyIntDigits cs).map Int.ofNat

/-- Consume a maximal run of decimal digits. -/
def spanDigits (l : List Char) : List Char × List Char :=
  (l.takeWhile Char.isDigit, l.dropWhile Char.isDigit)

/-- Accept an optional exponent part of a Python float literal, which must
exhaust the input. -/
def expPartOk : List Char → Bool
  | [] => true
  | c :: cs =>
    if c = 'e' || c = 'E' then
      let cs2 := match cs with
        | d :: ds => if d = '+' || d = '-' then ds else d :: ds
        | [] => []
      let (ds, r) := spanDigits cs2
      !ds.isEmpty && r.isEmpty
    else false

/-- Accept the unsigned mantissa (with optional exponent) of a Python
float literal. -/
def mantissaOk (l : List Char) : Bool :=
  let (d1, r1) := spanDigits l
  match r1 with
  | '.' :: r2 =>
    let (d2, r3) := spanDigits r2
    (!d1.isEmpty || !d2.isEmpty) && expPartOk r3
  | _ => !d1.isEmpty && expPartOk r1

/-- Whether Python `float(s)` succeeds on ASCII text `s`: strip, optional
sign, then a decimal mantissa with optional exponent, or one of the
special words `inf`, `infinity`, `nan`. -/
def pyFloatOk (s : String) : Bool :=
  let t := (pyStrip s).toList
  let t2 := match t with
    | c :: cs => if c = '+' || c = '-' then cs else c :: cs
    | [] => []
  let low := t2.map Char.toLower
  low == "inf".toList || low == "infinity".toList || low == "nan".toList || mantissaOk t2

/-! ## Data model -/

/-- One table row: an ordered sequence of nullable text cells. -/
abbrev Row := List (Option String)

/-- The `votes_secured` sub-record; missing or non-numeric cells default
to `0` in the source. -/
structure VotesSecured where
  general : Int
  postal : Int
  total : Int
deriving DecidableEq, Repr

/-- The `percentage_of_votes` sub-record; a present field holds the text
of the accepted float literal (float values themselves are not needed by
any claim). -/
structure PercentageOfVotes where
  over_total_electors : Option String
  over_total_votes_polled : Option String
  over_total_valid_votes : Option String
deriving DecidableEq, Repr

/-- One parsed candidate row, mirroring the dictionary built by
`parse_table_row`. -/
structure CandidateRecord where
  serial_number : Option Int
  candidate_name : String
  gender : String
  age : Option Int
  category : String
  party : String
  symbol : String
  total_votes_polled : Option Int
  valid_votes : Option Int
  votes_secured : VotesSecured
  percentage_of_votes : PercentageOfVotes
deriving DecidableEq, Repr

/-- The result of a successful header match, as returned by
`extract_constituency_info`. -/
structure ConstituencyInfo where
  constituency_number : Int
  constituency_name : String
  total_electors : Int
deriving DecidableEq, Repr

/-- One constituency in the output document. -/
structure ConstituencyRecord where
  constituency_number : Int
  constituency_name : String
  total_electors : Int
  candidates : List CandidateRecord
deriving DecidableEq, Repr

/-- One page of the abstract PDF: the extracted text (or `none`) and the
detected tables. -/
structure Page where
  text : Option String
  tables : List (List Row)
deriving DecidableEq, Repr

/-- The output document of the extraction pass. -/
structure ElectionResultDocument where
  election : String
  state : String
  constituencies : List ConstituencyRecord
deriving DecidableEq, Repr

/-! ## Header detector

The source matches `re.search` with the pattern
`Constituency:\s*(\d+)\s*\.\s*(.+?)\s*\(\s*Total Electors\s*(\d+)\s*\)`.
The matcher below reproduces the backtracking order of the engine:
`\s*` is greedy (longest first), `(.+?)` is lazy (shortest first), `.`
does not match a newline, and the search returns the leftmost match. -/

/-- Match a literal character sequence at the head of the input. -/
def expectLit : List Char → List Char → Option (List Char)
  | [], l => some l
  | c :: cs, x :: xs => if x = c then expectLit cs xs else none
  | _ :: _, [] => none

/-- Match the tail of the pattern after the name group:
`\s*\(\s*Total Electors\s*(\d+)\s*\)`; returns the electors group. -/
def tailAfterName (l : List Char) : Option Int :=
  match (l.dropWhile isSpaceChar) with
  | '(' :: l1 =>
    match expectLit "Total Electors".toList (l1.dropWhile isSpaceChar) with
    | none => none
    | some l2 =>
      if ((l2.dropWhile isSpaceChar).takeWhile Char.isDigit).isEmpty then none
      else
        match ((l2.dropWhile isSpaceChar).dropWhile Char.isDigit).dropWhile
            isSpaceChar with
        | ')' :: _ =>
          some (Int.ofNat (digitsToNat ((l2.dropWhile isSpaceChar).takeWhile
            Char.isDigit)))
        | _ => none
  | _ => none

/-- Lazy expansion of the name group `(.+?)`: grow the name one character
at a time (never across a newline), testing the tail of the pattern after
each step. -/
def lazyName (acc : List Char) : List Char → Option (List Char × Int)
  | [] => none
  | c :: rest =>
    if c = '\n' then none
    else
      match tailAfterName rest with
      | some e => some (acc ++ [c], e)
      | none => lazyName (acc ++ [c]) rest

/-- Backtrack the greedy `\s*` that precedes the name group: try the
longest whitespace prefix first, then shorter ones. -/
def wsBacktrack (l : List Char) : Nat → Option (List Char × Int)
  | 0 => lazyName [] l
  | w + 1 =>
    match lazyName [] (l.drop (w + 1)) with
    | some r => some r
    | none => wsBacktrack l w

/-- Match `\s*(.+?)\s*\(\s*Total Electors\s*(\d+)\s*\)` at the head of the
input, following the engine's backtracking order. -/
def nameSection (l : List Char) : Option (List Char × Int) :=
  wsBacktrack l (l.takeWhile isSpaceChar).length

/-- Try to match the whole header pattern at the head of the input. -/
def matchAt (l : List Char) : Option ConstituencyInfo :=
  match expectLit "Constituency:".toList l with
  | none => none
  | some l1 =>
    if ((l1.dropWhile isSpaceChar).takeWhile Char.isDigit).isEmpty then none
    else
      match ((l1.dropWhile isSpaceChar).dropWhile Char.isDigit).dropWhile
          isSpaceChar with
      | '.' :: l3 =>
        match nameSection l3 with
        | none => none
        | some (nm, electors) =>
          some { constituency_number :=
                   Int.ofNat (digitsToNat ((l1.dropWhile isSpaceChar).takeWhile
                     Char.isDigit)),
                 constituency_name := pyStrip (String.mk nm),
                 total_electors := electors }
      | _ => none

/-- Leftmost search: try the pattern at every start position in order. -/
def searchHeader : List Char → Option ConstituencyInfo
  | [] => none
  | c :: rest =>
    match matchAt (c :: rest) with
    | some h => some h
    | none => searchHeader rest

/-- Embedding of `extract_constituency_info`: first match of the header
pattern in the text, with the name group stripped of surrounding
whitespace, or `none` when the pattern does not occur. -/
def extract_constituency_info (text : String) : Option ConstituencyInfo :=
  searchHeader text.toList

/-! ## Row parser -/

/-- Python `row[i]` as a fallible access: `none` is an `IndexError`. -/
def cellGet (row : Row) (i : Nat) : Option (Option String) :=
  row.get? i

/-- Cell access used where the source has already bounded the index:
out-of-range behaves like a `None` cell. -/
def cellD (row : Row) (i : Nat) : Option String :=
  (row.get? i).getD none

/-- The header/footer markers of rejection rule 2. -/
def headerMarkers : List String := ["SL", "SL NO", "TOTAL", ""]

/-- A string cell: `str(x).strip()` when truthy, else the empty string. -/
def strField (c : Option String) : String :=
  match c with
  | none => ""
  | some s => if s.isEmpty then "" else pyStrip s

/-- A string cell with newline characters replaced by spaces:
`str(x).strip().replace("\n", " ")` when truthy, else empty. -/
def strFieldNl (c : Option String) : String :=
  match c with
  | none => ""
  | some s =>
    if s.isEmpty then ""
    else String.mk ((pyStrip s).toList.map (fun ch => if ch = '\n' then ' ' else ch))

/-- Guarded optional integer field, the pattern
`int(x) if x and g(str(x)).isdigit() else None`; the guard `g` is the
strip (serial number, age) or strip-and-remove-commas (vote counts)
preprocessing.  The outer `none` is a `ValueError` escaping to the row's
`except` clause: the source applies `int` to the raw cell even though the
guard tested the preprocessed text. -/
def coerceOptInt (c : Option String) (g : String → String) : Option (Option Int) :=
  match c with
  | none => some none
  | some s =>
    if !s.isEmpty && pyIsDigit (g s) then
      match pyInt s with
      | some v => some (some v)
      | none => none
    else some none

/-- Guarded integer field defaulting to `0`, the `votes_secured` pattern
`int(x) if x and str(x).strip().replace(",", "").isdigit() else 0`; the
outer `none` is again a `ValueError` on the raw cell. -/
def coerceVotesInt (c : Option String) : Option Int :=
  match c with
  | none => some 0
  | some s =>
    if !s.isEmpty && pyIsDigit (stripCommas s) then
      match pyInt s with
      | some v => some v
      | none => none
    else some 0

/-- The percentage-cell preprocessing
`str(x).strip().replace(",", "").replace("%", "").replace("-", "").strip()`. -/
def stripPct (s : String) : String :=
  pyStrip (String.mk ((pyStrip s).toList.filter
    (fun c => c != ',' && c != '%' && c != '-')))

/-- Guarded optional float field, the pattern
`float(x) if x and stripPct(str(x)) else None`; a present field keeps the
literal text accepted by `float`, and the outer `none` is a `ValueError`
on the raw cell. -/
def coerceOptFloat (c : Option String) : Option (Option String) :=
  match c with
  | none => some none
  | some s =>
    if !s.isEmpty && !(stripPct s).isEmpty then
      if pyFloatOk s then some (some s) else none
    else some none

/-- Embedding of `parse_table_row`.  The bind chain carries the fallible
steps (cell accesses past index 6 and numeric coercions); a `none` result
is the source's `return None`, reached through an early rejection or
through the `except (ValueError, IndexError)` clause.  The pure string
fields are inlined in the final record (their evaluation cannot raise). -/
def parse_table_row (row : Row) : Option CandidateRecord :=
  if row.length < 10 then none
  else
    match cellD row 0 with
    | none => none
    | some s0 =>
      if headerMarkers.contains (pyUpper (pyStrip s0)) then none
      else
        match coerceOptInt (some s0) pyStrip with
        | none => none
        | some serial =>
        match coerceOptInt (cellD row 3) pyStrip with
        | none => none
        | some age =>
        match cellGet row 7 with
        | none => none
        | some c7 =>
        match coerceOptInt c7 stripCommas with
        | none => none
        | some tvp =>
        match cellGet row 8 with
        | none => none
        | some c8 =>
        match coerceOptInt c8 stripCommas with
        | none => none
        | some vv =>
        match cellGet row 9 with
        | none => none
        | some c9 =>
        match coerceVotesInt c9 with
        | none => none
        | some vg =>
        match cellGet row 10 with
        | none => none
        | some c10 =>
        match coerceVotesInt c10 with
        | none => none
        | some vp =>
        match cellGet row 11 with
        | none => none
        | some c11 =>
        match coerceVotesInt c11 with
        | none => none
        | some vt =>
        match cellGet row 12 with
        | none => none
        | some c12 =>
        match coerceOptFloat c12 with
        | none => none
        | some p12 =>
        match cellGet row 13 with
        | none => none
        | some c13 =>
        match coerceOptFloat c13 with
        | none => none
        | some p13 =>
        match (if row.length > 14 then coerceOptFloat (cellD row 14) else some none) with
        | none => none
        | some p14 =>
        some { serial_number := serial,
               candidate_name := strFieldNl (cellD row 1),
               gender := strField (cellD row 2),
               age := age,
               category := strField (cellD row 4),
               party := strField (cellD row 5),
               symbol := strFieldNl (cellD row 6),
               total_votes_polled := tvp,
               valid_votes := vv,
               votes_secured := { general := vg, postal := vp, total := vt },
               percentage_of_votes :=
                 { over_total_electors := p12,
                   over_total_votes_polled := p13,
                   over_total_valid_votes := p14 } }

/-! ## Accumulator / assembler -/

/-- A fresh constituency record initialized from a header match. -/
def newConstituency (info : ConstituencyInfo) : ConstituencyRecord :=
  { constituency_number := info.constituency_number,
    constituency_name := info.constituency_name,
    total_electors := info.total_electors,
    candidates := [] }

/-- Process one table row against the current constituency: a parsed
candidate with a non-`None` serial number is appended unless a candidate
with the same serial number is already present. -/
def admitRow (c : ConstituencyRecord) (row : Row) : ConstituencyRecord :=
  match parse_table_row row with
  | none => c
  | some cand =>
    match cand.serial_number with
    | none => c
    | some _ =>
      if c.candidates.any (fun e => e.serial_number == cand.serial_number) then c
      else { c with candidates := c.candidates ++ [cand] }

/-- Process one table: tables with fewer than 2 rows are skipped, and the
first two rows are skipped unconditionally as table headers. -/
def processTable (c : ConstituencyRecord) (table : List Row) : ConstituencyRecord :=
  if table.length < 2 then c
  else (table.drop 2).foldl admitRow c

/-- Process every table of a page against the current constituency. -/
def processTables (c : ConstituencyRecord) (tables : List (List Row)) :
    ConstituencyRecord :=
  tables.foldl processTable c

/-- One step of the page loop over the state
(result list so far, current constituency).  Pages with no extractable
text are skipped entirely; a header match flushes the current record and
starts a new one; tables are processed only when a current constituency
exists. -/
def stepPage (st : List ConstituencyRecord × Option ConstituencyRecord) (pg : Page) :
    List ConstituencyRecord × Option ConstituencyRecord :=
  match pg.text with
  | none => st
  | some t =>
    if t.isEmpty then st
    else
      let st2 :=
        match extract_constituency_info t with
        | some info => (st.1 ++ st.2.toList, some (newConstituency info))
        | none => st
      if pg.tables.isEmpty then st2
      else
        match st2.2 with
        | none => st2
        | some c => (st2.1, some (processTables c pg.tables))

/-- Flush the final state: the accumulated list plus the still-active
constituency, if any. -/
def finalizeState (st : List ConstituencyRecord × Option ConstituencyRecord) :
    List ConstituencyRecord :=
  st.1 ++ st.2.toList

/-- Embedding of `extract_pdf_to_json` on the abstract page sequence
(file I/O and JSON serialization are external collaborators). -/
def extract_pdf_to_json (pages : List Page) : ElectionResultDocument :=
  { election := "2024 Lok Sabha Elections",
    state := "Andhra Pradesh",
    constituencies := finalizeState (pages.foldl stepPage ([], none)) }

/-- The header match produced by a page, if any: pages without text (or
with empty text) yield nothing, exactly as in the page loop. -/
def pageHeader (pg : Page) : Option ConstituencyInfo :=
  match pg.text with
  | none => none
  | some t => if t.isEmpty then none else extract_constituency_info t

/-- The sequence of header matches over the document, in page order. -/
def discoveredHeaders : List Page → List ConstituencyInfo
  | [] => []
  | pg :: rest =>
    match pageHeader pg with
    | some h => h :: discoveredHeaders rest
    | none => discoveredHeaders rest

/-- The header part of a constituency record. -/
def headerOf (c : ConstituencyRecord) : ConstituencyInfo :=
  { constituency_number := c.constituency_number,
    constituency_name := c.constituency_name,
    total_electors := c.total_electors }

/-- Whether the page loop looks at a page at all (the page yields some
non-empty text). -/
def pageActive (pg : Page) : Bool :=
  match pg.text with
  | none => false
  | some t => !t.isEmpty

/-! ## Rejection conditions, named for the specification of the parser -/

/-- Rejection rule 2: cell 0 is `None`, or its trimmed uppercase form is a
header/footer marker. -/
def badCell0 (row : Row) : Bool :=
  match cellD row 0 with
  | none => true
  | some s => headerMarkers.contains (pyUpper (pyStrip s))

/-- Rejection rule 3: some cell access past index 6 or some numeric
coercion inside the `try` block raises, rejecting the whole row.  Each
disjunct names one fallible step of `parse_table_row`. -/
def rowCoercionError (row : Row) : Bool :=
  (coerceOptInt (cellD row 0) pyStrip).isNone
  || (coerceOptInt (cellD row 3) pyStrip).isNone
  || (cellGet row 7).isNone || (coerceOptInt (cellD row 7) stripCommas).isNone
  || (cellGet row 8).isNone || (coerceOptInt (cellD row 8) stripCommas).isNone
  || (cellGet row 9).isNone || (coerceVotesInt (cellD row 9)).isNone
  || (cellGet row 10).isNone || (coerceVotesInt (cellD row 10)).isNone
  || (cellGet row 11).isNone || (coerceVotesInt (cellD row 11)).isNone
  || (cellGet row 12).isNone || (coerceOptFloat (cellD row 12)).isNone
  || (cellGet row 13).isNone || (coerceOptFloat (cellD row 13)).isNone
  || (if row.length > 14 then (coerceOptFloat (cellD row 14)).isNone else false)

/-! ## Concrete sample inputs -/

/-- A well-formed 15-cell data row for candidate serial 1. -/
def sampleRow : Row :=
  [some "1", some "CAND ONE", some "M", some "45", some "GEN", some "PRT",
   some "SYM", some "1000", some "990", some "900", some "90", some "990",
   some "1.0", some "2.0", some "3.0"]

/-- A 15-cell table-header row (cell 0 is the `SL` marker). -/
def labelRow : Row :=
  [some "SL", some "Name", some "Gender", some "Age", some "Category",
   some "Party", some "Symbol", some "Votes polled", some "Valid votes",
   some "General", some "Postal", some "Total", some "P1", some "P2", some "P3"]

/-- `sampleRow` with the comma-grouped vote count `"12,345"` in cell 7. -/
def rowComma : Row := sampleRow.set 7 (some "12,345")

/-- `sampleRow` with the non-numeric percentage cell `"abc"` in cell 12. -/
def rowAbc : Row := sampleRow.set 12 (some "abc")

/-- `sampleRow` with serial number `"0"` in cell 0. -/
def rowSerial0 : Row := sampleRow.set 0 (some "0")

/-- `sampleRow` with serial number `"7"` in cell 0. -/
def rowDup1 : Row := sampleRow.set 0 (some "7")

/-- A second row with the same serial number `"7"` but a different
candidate name. -/
def rowDup2 : Row := (sampleRow.set 0 (some "7")).set 1 (some "OTHER NAME")

/-- `sampleRow` with the string cells 1, 2, 4, 5, 6 set to `None`. -/
def rowNulls : Row :=
  ((((sampleRow.set 1 none).set 2 none).set 4 none).set 5 none).set 6 none

/-- The candidate record produced by parsing `sampleRow`. -/
def sampleCand : CandidateRecord :=
  { serial_number := some 1, candidate_name := "CAND ONE", gender := "M",
    age := some 45, category := "GEN", party := "PRT", symbol := "SYM",
    total_votes_polled := some 1000, valid_votes := some 990,
    votes_secured := { general := 900, postal := 90, total := 990 },
    percentage_of_votes := { over_total_electors := some "1.0",
                             over_total_votes_polled := some "2.0",
                             over_total_valid_votes := some "3.0" } }

/-- Fallback constituency record for `headD`. -/
def emptyCRec : ConstituencyRecord :=
  { constituency_number := 0, constituency_name := "", total_electors := 0,
    candidates := [] }

/-- Fallback candidate record for `headD`. -/
def emptyCand : CandidateRecord :=
  { serial_number := none, candidate_name := "", gender := "", age := none,
    category := "", party := "", symbol := "",
    total_votes_polled := none, valid_votes := none,
    votes_secured := { general := 0, postal := 0, total := 0 },
    percentage_of_votes := { over_total_electors := none,
                             over_total_votes_polled := none,
                             over_total_valid_votes := none } }

/-- The two-page synthetic document of the end-to-end scenario: page 1 has
the header for constituency 1 and one table of one label row plus one data
row; page 2 has the header for constituency 2 and no tables. -/
def scenarioDoc : List Page :=
  [{ text := some "Constituency: 1 . Alpha ( Total Electors 100 )",
     tables := [[labelRow, sampleRow]] },
   { text := some "Constituency: 2 . Beta ( Total Electors 200 )",
     tables := [] }]

/-- A one-page document whose table admits the candidate with serial
number `"0"` (two label rows, then the data row). -/
def serial0Doc : List Page :=
  [{ text := some "Constituency: 5 . Gamma ( Total Electors 50 )",
     tables := [[labelRow, labelRow, rowSerial0]] }]

/-- A two-page document whose pages carry the same header number `0`. -/
def dupHeaderDoc : List Page :=
  [{ text := some "Constituency: 0 . Dup ( Total Electors 10 )", tables := [] },
   { text := some "Constituency: 0 . Dup ( Total Electors 10 )", tables := [] }]

/-- A one-page document whose table carries two successfully parsing data
rows with the same serial number `7` (after the two skipped header rows). -/
def dupSerialDoc : List Page :=
  [{ text := some "Constituency: 3 . Delta ( Total Electors 30 )",
     tables := [[labelRow, labelRow, rowDup1, rowDup2]] }]

/-! ## Lemmas about the row parser -/

lemma cellD_of_cellGet {row : Row} {i : Nat} {c : Option String}
    (h : cellGet row i = some c) : cellD row i = c := by
  unfold cellGet at h
  unfold cellD
  rw [h]
  rfl

/-- The row parser rejects exactly under the three rules: short row, bad
cell 0, or a raised cell access / numeric coercion. -/
lemma parse_none_iff (row : Row) :
    parse_table_row row = none ↔
      row.length < 10 ∨ badCell0 row = true ∨ rowCoercionError row = true := by
  by_cases hlen : row.length < 10
  · simp [parse_table_row, hlen]
  rcases h0 : cellD row 0 with _ | s0
  · simp [parse_table_row, hlen, h0, badCell0]
  by_cases hm : pyUpper (pyStrip s0) ∈ headerMarkers
  · simp [parse_table_row, hlen, h0, hm, badCell0]
  rcases hc1 : coerceOptInt (some s0) pyStrip with _ | serial
  · simp [parse_table_row, rowCoercionError, hlen, h0, hm, hc1, badCell0]
  rcases hc2 : coerceOptInt (cellD row 3) pyStrip with _ | age
  · simp [parse_table_row, rowCoercionError, hlen, h0, hm, hc1, hc2, badCell0]
  rcases hg7 : cellGet row 7 with _ | c7
  · simp [parse_table_row, rowCoercionError, hlen, h0, hm, hc1, hc2, hg7, badCell0]
  have hd7 := cellD_of_cellGet hg7
  rcases hc3 : coerceOptInt c7 stripCommas with _ | tvp
  · simp [parse_table_row, rowCoercionError, hlen, h0, hm, hc1, hc2, hg7, hd7, hc3,
      badCell0]
  rcases hg8 : cellGet row 8 with _ | c8
  · simp [parse_table_row, rowCoercionError, hlen, h0, hm, hc1, hc2, hg7, hd7, hc3,
      hg8, badCell0]
  have hd8 := cellD_of_cellGet hg8
  rcases hc4 : coerceOptInt c8 stripCommas with _ | vv
  · simp [parse_table_row, rowCoercionError, hlen, h0, hm, hc1, hc2, hg7, hd7, hc3,
      hg8, hd8, hc4, badCell0]
  rcases hg9 : cellGet row 9 with _ | c9
  · simp [parse_table_row, rowCoercionError, hlen, h0, hm, hc1, hc2, hg7, hd7, hc3,
      hg8, hd8, hc4, hg9, badCell0]
  have hd9 := cellD_of_cellGet hg9
  rcases hc5 : coerceVotesInt c9 with _ | vg
  · simp [parse_table_row, rowCoercionError, hlen, h0, hm, hc1, hc2, hg7, hd7, hc3,
      hg8, hd8, hc4, hg9, hd9, hc5, badCell0]
  rcases hg10 : cellGet row 10 with _ | c10
  · simp [parse_table_row, rowCoercionError, hlen, h0, hm, hc1, hc2, hg7, hd7, hc3,
      hg8, hd8, hc4, hg9, hd9, hc5, hg10, badCell0]
  have hd10 := cellD_of_cellGet hg10
  rcases hc6 : coerceVotesInt c10 with _ | vp
  · simp [parse_table_row, rowCoercionError, hlen, h0, hm, hc1, hc2, hg7, hd7, hc3,
      hg8, hd8, hc4, hg9, hd9, hc5, hg10, hd10, hc6, badCell0]
  rcases hg11 : cellGet row 11 with _ | c11
  · simp [parse_table_row, rowCoercionError, hlen, h0, hm, hc1, hc2, hg7, hd7, hc3,
      hg8, hd8, hc4, hg9, hd9, hc5, hg10, hd10, hc6, hg11, badCell0]
  have hd11 := cellD_of_cellGet hg11
  rcases hc7 : coerceVotesInt c11 with _ | vt
  · simp [parse_table_row, rowCoercionError, hlen, h0, hm, hc1, hc2, hg7, hd7, hc3,
      hg8, hd8, hc4, hg9, hd9, hc5, hg10, hd10, hc6, hg11, hd11, hc7, badCell0]
  rcases hg12 : cellGet row 12 with _ | c12
  · simp [parse_table_row, rowCoercionError, hlen, h0, hm, hc1, hc2, hg7, hd7, hc3,
      hg8, hd8, hc4, hg9, hd9, hc5, hg10, hd10, hc6, hg11, hd11, hc7, hg12, badCell0]
  have hd12 := cellD_of_cellGet hg12
  rcases hc8 : coerceOptFloat c12 with _ | p12
  · simp [parse_table_row, rowCoercionError, hlen, h0, hm, hc1, hc2, hg7, hd7, hc3,
      hg8, hd8, hc4, hg9, hd9, hc5, hg10, hd10, hc6, hg11, hd11, hc7, hg12, hd12,
      hc8, badCell0]
  rcases hg13 : cellGet row 13 with _ | c13
  · simp [parse_table_row, rowCoercionError, hlen, h0, hm, hc1, hc2, hg7, hd7, hc3,
      hg8, hd8, hc4, hg9, hd9, hc5, hg10, hd10, hc6, hg11, hd11, hc7, hg12, hd12,
      hc8, hg13, badCell0]
  have hd13 := cellD_of_cellGet hg13
  rcases hc9 : coerceOptFloat c13 with _ | p13
  · simp [parse_table_row, rowCoercionError, hlen, h0, hm, hc1, hc2, hg7, hd7, hc3,
      hg8, hd8, hc4, hg9, hd9, hc5, hg10, hd10, hc6, hg11, hd11, hc7, hg12, hd12,
      hc8, hg13, hd13, hc9, badCell0]
  by_cases hl14 : row.length > 14
  · rcases hc10 : coerceOptFloat (cellD row 14) with _ | p14
    · simp [parse_table_row, rowCoercionError, hlen, h0, hm, hc1, hc2, hg7, hd7, hc3,
        hg8, hd8, hc4, hg9, hd9, hc5, hg10, hd10, hc6, hg11, hd11, hc7, hg12, hd12,
        hc8, hg13, hd13, hc9, hl14, hc10, badCell0]
    · simp [parse_table_row, rowCoercionError, hlen, h0, hm, hc1, hc2, hg7, hd7, hc3,
        hg8, hd8, hc4, hg9, hd9, hc5, hg10, hd10, hc6, hg11, hd11, hc7, hg12, hd12,
        hc8, hg13, hd13, hc9, hl14, hc10, badCell0]
  · simp [parse_table_row, rowCoercionError, hlen, h0, hm, hc1, hc2, hg7, hd7, hc3,
      hg8, hd8, hc4, hg9, hd9, hc5, hg10, hd10, hc6, hg11, hd11, hc7, hg12, hd12,
      hc8, hg13, hd13, hc9, hl14, badCell0]

/-- Anatomy of a successful parse: how every field of the returned record
is computed from the row's cells. -/
lemma parse_some_spec {row : Row} {cand : CandidateRecord}
    (h : parse_table_row row = some cand) :
    ¬ row.length < 10
    ∧ (∃ s0, cellD row 0 = some s0
        ∧ pyUpper (pyStrip s0) ∉ headerMarkers
        ∧ coerceOptInt (some s0) pyStrip = some cand.serial_number)
    ∧ cand.candidate_name = strFieldNl (cellD row 1)
    ∧ cand.gender = strField (cellD row 2)
    ∧ coerceOptInt (cellD row 3) pyStrip = some cand.age
    ∧ cand.category = strField (cellD row 4)
    ∧ cand.party = strField (cellD row 5)
    ∧ cand.symbol = strFieldNl (cellD row 6)
    ∧ coerceOptInt (cellD row 7) stripCommas = some cand.total_votes_polled
    ∧ coerceOptInt (cellD row 8) stripCommas = some cand.valid_votes
    ∧ coerceVotesInt (cellD row 9) = some cand.votes_secured.general
    ∧ coerceVotesInt (cellD row 10) = some cand.votes_secured.postal
    ∧ coerceVotesInt (cellD row 11) = some cand.votes_secured.total
    ∧ coerceOptFloat (cellD row 12)
        = some cand.percentage_of_votes.over_total_electors
    ∧ coerceOptFloat (cellD row 13)
        = some cand.percentage_of_votes.over_total_votes_polled
    ∧ (if row.length > 14
        then coerceOptFloat (cellD row 14)
          = some cand.percentage_of_votes.over_total_valid_votes
        else cand.percentage_of_votes.over_total_valid_votes = none) := by
  by_cases hlen : row.length < 10
  · simp [parse_table_row, hlen] at h
  rcases h0 : cellD row 0 with _ | s0
  · simp [parse_table_row, hlen, h0] at h
  by_cases hm : pyUpper (pyStrip s0) ∈ headerMarkers
  · simp [parse_table_row, hlen, h0, hm] at h
  rcases hc1 : coerceOptInt (some s0) pyStrip with _ | serial
  · simp [parse_table_row, hlen, h0, hm, hc1] at h
  rcases hc2 : coerceOptInt (cellD row 3) pyStrip with _ | age
  · simp [parse_table_row, hlen, h0, hm, hc1, hc2] at h
  rcases hg7 : cellGet row 7 with _ | c7
  · simp [parse_table_row, hlen, h0, hm, hc1, hc2, hg7] at h
  have hd7 := cellD_of_cellGet hg7
  rcases hc3 : coerceOptInt c7 stripCommas with _ | tvp
  · simp [parse_table_row, hlen, h0, hm, hc1, hc2, hg7, hc3] at h
  rcases hg8 : cellGet row 8 with _ | c8
  · simp [parse_table_row, hlen, h0, hm, hc1, hc2, hg7, hc3, hg8] at h
  have hd8 := cellD_of_cellGet hg8
  rcases hc4 : coerceOptInt c8 stripCommas with _ | vv
  · simp [parse_table_row, hlen, h0, hm, hc1, hc2, hg7, hc3, hg8, hc4] at h
  rcases hg9 : cellGet row 9 with _ | c9
  · simp [parse_table_row, hlen, h0, hm, hc1, hc2, hg7, hc3, hg8, hc4, hg9] at h
  have hd9 := cellD_of_cellGet hg9
  rcases hc5 : coerceVotesInt c9 with _ | vg
  · simp [parse_table_row, hlen, h0, hm, hc1, hc2, hg7, hc3, hg8, hc4, hg9, hc5] at h
  rcases hg10 : cellGet row 10 with _ | c10
  · simp [parse_table_row, hlen, h0, hm, hc1, hc2, hg7, hc3, hg8, hc4, hg9, hc5,
      hg10] at h
  have hd10 := cellD_of_cellGet hg10
  rcases hc6 : coerceVotesInt c10 with _ | vp
  · simp [parse_table_row, hlen, h0, hm, hc1, hc2, hg7, hc3, hg8, hc4, hg9, hc5,
      hg10, hc6] at h
  rcases hg11 : cellGet row 11 with _ | c11
  · simp [parse_table_row, hlen, h0, hm, hc1, hc2, hg7, hc3, hg8, hc4, hg9, hc5,
      hg10, hc6, hg11] at h
  have hd11 := cellD_of_cellGet hg11
  rcases hc7 : coerceVotesInt c11 with _ | vt
  · simp [parse_table_row, hlen, h0, hm, hc1, hc2, hg7, hc3, hg8, hc4, hg9, hc5,
      hg10, hc6, hg11, hc7] at h
  rcases hg12 : cellGet row 12 with _ | c12
  · simp [parse_table_row, hlen, h0, hm, hc1, hc2, hg7, hc3, hg8, hc4, hg9, hc5,
      hg10, hc6, hg11, hc7, hg12] at h
  have hd12 := cellD_of_cellGet hg12
  rcases hc8 : coerceOptFloat c12 with _ | p12
  · simp [parse_table_row, hlen, h0, hm, hc1, hc2, hg7, hc3, hg8, hc4, hg9, hc5,
      hg10, hc6, hg11, hc7, hg12, hc8] at h
  rcases hg13 : cellGet row 13 with _ | c13
  · simp [parse_table_row, hlen, h0, hm, hc1, hc2, hg7, hc3, hg8, hc4, hg9, hc5,
      hg10, hc6, hg11, hc7, hg12, hc8, hg13] at h
  have hd13 := cellD_of_cellGet hg13
  rcases hc9 : coerceOptFloat c13 with _ | p13
  · simp [parse_table_row, hlen, h0, hm, hc1, hc2, hg7, hc3, hg8, hc4, hg9, hc5,
      hg10, hc6, hg11, hc7, hg12, hc8, hg13, hc9] at h
  by_cases hl14 : row.length > 14
  · rcases hc10 : coerceOptFloat (cellD row 14) with _ | p14
    · simp [parse_table_row, hlen, h0, hm, hc1, hc2, hg7, hc3, hg8, hc4, hg9, hc5,
        hg10, hc6, hg11, hc7, hg12, hc8, hg13, hc9, hl14, hc10] at h
    · simp only [parse_table_row, if_neg hlen, h0, hc1, hc2, hg7, hc3, hg8, hc4,
        hg9, hc5, hg10, hc6, hg11, hc7, hg12, hc8, hg13, hc9, if_pos hl14,
        hc10] at h
      have hmc : headerMarkers.contains (pyUpper (pyStrip s0)) = false := by
        simpa using hm
      rw [hmc] at h
      simp only [Bool.false_eq_true, if_false, Option.some.injEq] at h
      subst h
      refine ⟨hlen, ⟨s0, rfl, hm, hc1⟩, rfl, rfl, rfl, rfl, rfl, rfl,
        ?_, ?_, ?_, ?_, ?_, ?_, ?_, ?_⟩
      · rw [hd7]; exact hc3
      · rw [hd8]; exact hc4
      · rw [hd9]; exact hc5
      · rw [hd10]; exact hc6
      · rw [hd11]; exact hc7
      · rw [hd12]; exact hc8
      · rw [hd13]; exact hc9
      · simp only [if_pos hl14]
  · simp only [parse_table_row, if_neg hlen, h0, hc1, hc2, hg7, hc3, hg8, hc4,
      hg9, hc5, hg10, hc6, hg11, hc7, hg12, hc8, hg13, hc9, if_neg hl14] at h
    have hmc : headerMarkers.contains (pyUpper (pyStrip s0)) = false := by
      simpa using hm
    rw [hmc] at h
    simp only [Bool.false_eq_true, if_false, Option.some.injEq] at h
    subst h
    refine ⟨hlen, ⟨s0, rfl, hm, hc1⟩, rfl, rfl, rfl, rfl, rfl, rfl,
      ?_, ?_, ?_, ?_, ?_, ?_, ?_, ?_⟩
    · rw [hd7]; exact hc3
    · rw [hd8]; exact hc4
    · rw [hd9]; exact hc5
    · rw [hd10]; exact hc6
    · rw [hd11]; exact hc7
    · rw [hd12]; exact hc8
    · rw [hd13]; exact hc9
    · simp only [if_neg hl14]

/-! ## Nonnegativity of guarded integer fields -/

lemma pyIntDigits_all {l : List Char} (hne : l.isEmpty = false)
    (hall : l.all Char.isDigit = true) : pyIntDigits l = some (digitsToNat l) := by
  simp [pyIntDigits, hne, hall]

lemma pyInt_of_strip_digits {s : String} (h : pyIsDigit (pyStrip s) = true) :
    pyInt s = some (Int.ofNat (digitsToNat (pyStrip s).toList)) := by
  unfold pyIsDigit at h
  rw [Bool.and_eq_true] at h
  obtain ⟨hne, hall⟩ := h
  rw [Bool.not_eq_true'] at hne
  unfold pyInt
  rcases hl : (pyStrip s).toList with _ | ⟨c, cs⟩
  · rw [hl] at hne; simp at hne
  rw [hl] at hall
  have hc : c.isDigit = true := by
    rw [List.all_cons, Bool.and_eq_true] at hall
    exact hall.1
  split
  · rename_i cs2 heq
    rw [List.cons.injEq] at heq
    rw [heq.1] at hc
    simp [Char.isDigit] at hc
  · rename_i cs2 heq
    rw [List.cons.injEq] at heq
    rw [heq.1] at hc
    simp [Char.isDigit] at hc
  · rw [pyIntDigits_all (by simp) hall]
    rfl

lemma coerceOptInt_strip_some_nonneg {s : String} {v : Int}
    (h : coerceOptInt (some s) pyStrip = some (some v)) : 0 ≤ v := by
  simp only [coerceOptInt] at h
  split at h
  · rename_i hguard
    have hd : pyIsDigit (pyStrip s) = true := by
      have h2 := hguard
      simp only [Bool.and_eq_true] at h2
      exact h2.2
    rw [pyInt_of_strip_digits hd] at h
    simp only [Option.some.injEq] at h
    rw [← h]
    exact Int.ofNat_nonneg _
  · simp at h

/-- The serial number of a successfully parsed row is absent or a
non-negative integer. -/
lemma parse_serial_nonneg {row : Row} {cand : CandidateRecord}
    (h : parse_table_row row = some cand) :
    cand.serial_number = none ∨ ∃ n : Int, cand.serial_number = some n ∧ 0 ≤ n := by
  obtain ⟨-, ⟨s0, -, -, hc⟩, -⟩ := parse_some_spec h
  rcases hs : cand.serial_number with _ | v
  · exact Or.inl rfl
  · refine Or.inr ⟨v, rfl, ?_⟩
    rw [hs] at hc
    exact coerceOptInt_strip_some_nonneg hc

/-! ## Structure of candidate admission -/

/-- `admitRow` either leaves the record unchanged or appends one parsed
candidate whose serial number is present and not yet in the record. -/
lemma admitRow_candidates (c : ConstituencyRecord) (row : Row) :
    (admitRow c row).candidates = c.candidates
    ∨ ∃ cand, parse_table_row row = some cand
        ∧ cand.serial_number.isSome = true
        ∧ (c.candidates.any fun e => e.serial_number == cand.serial_number) = false
        ∧ (admitRow c row).candidates = c.candidates ++ [cand] := by
  rcases hp : parse_table_row row with _ | cand
  · left
    simp [admitRow, hp]
  rcases hs : cand.serial_number with _ | n
  · left
    simp [admitRow, hp, hs]
  by_cases ha : (c.candidates.any fun e => e.serial_number == some n) = true
  · left
    simp [admitRow, hp, hs, ha]
  · rw [Bool.not_eq_true] at ha
    right
    refine ⟨cand, rfl, by rw [hs]; rfl, by rw [hs]; exact ha, ?_⟩
    simp [admitRow, hp, hs, ha]

/-- `admitRow` never changes the header fields of the record. -/
lemma headerOf_admitRow (c : ConstituencyRecord) (row : Row) :
    headerOf (admitRow c row) = headerOf c := by
  rcases hp : parse_table_row row with _ | cand
  · simp [admitRow, hp]
  rcases hs : cand.serial_number with _ | n
  · simp [admitRow, hp, hs]
  by_cases ha : (c.candidates.any fun e => e.serial_number == some n) = true
  · simp [admitRow, hp, hs, ha]
  · rw [Bool.not_eq_true] at ha
    simp [admitRow, hp, hs, ha, headerOf]

lemma headerOf_foldl_admit (rows : List Row) (c : ConstituencyRecord) :
    headerOf (rows.foldl admitRow c) = headerOf c := by
  induction rows generalizing c with
  | nil => rfl
  | cons r rs ih => rw [List.foldl_cons, ih, headerOf_admitRow]

lemma headerOf_processTable (c : ConstituencyRecord) (t : List Row) :
    headerOf (processTable c t) = headerOf c := by
  unfold processTable
  split
  · rfl
  · exact headerOf_foldl_admit _ _

lemma headerOf_processTables (c : ConstituencyRecord) (ts : List (List Row)) :
    headerOf (processTables c ts) = headerOf c := by
  unfold processTables
  induction ts generalizing c with
  | nil => rfl
  | cons t rest ih => rw [List.foldl_cons, ih, headerOf_processTable]

lemma headerOf_newConstituency (info : ConstituencyInfo) :
    headerOf (newConstituency info) = info := by
  cases info
  rfl

/-! ## The page loop as a state machine -/

/-- Characterization of one page step: skipped page, header page, or
table-only page. -/
lemma stepPage_eq (res : List ConstituencyRecord) (cur : Option ConstituencyRecord)
    (pg : Page) :
    stepPage (res, cur) pg =
      if pageActive pg = true then
        match pageHeader pg with
        | some info =>
          (res ++ cur.toList, some (processTables (newConstituency info) pg.tables))
        | none => (res, cur.map (fun c => processTables c pg.tables))
      else (res, cur) := by
  unfold stepPage pageActive pageHeader
  rcases ht : pg.text with _ | t
  · rfl
  by_cases hte : t.isEmpty = true
  · simp [hte]
  rw [Bool.not_eq_true] at hte
  rcases hdr : extract_constituency_info t with _ | info
  · simp only [hte, Bool.not_false, if_pos, hdr, if_true]
    by_cases htb : pg.tables.isEmpty = true
    · have : pg.tables = [] := by simpa using htb
      rcases cur with _ | c0 <;> simp [htb, this, processTables]
    · rw [Bool.not_eq_true] at htb
      rcases cur with _ | c0 <;> simp [htb]
  · simp only [hte, Bool.not_false, if_true, hdr]
    by_cases htb : pg.tables.isEmpty = true
    · have : pg.tables = [] := by simpa using htb
      simp [htb, this, processTables]
    · rw [Bool.not_eq_true] at htb
      simp [htb]

/-- A skipped page discovers no header. -/
lemma pageHeader_of_inactive {pg : Page} (h : pageActive pg = false) :
    pageHeader pg = none := by
  unfold pageActive at h
  unfold pageHeader
  rcases ht : pg.text with _ | t
  · rfl
  rw [ht] at h
  simp only [Bool.not_eq_false'] at h
  simp [h]

/-! ## Invariants preserved along the page fold -/

lemma foldl_admit_pres {Q : List CandidateRecord → Prop}
    (hstep : ∀ c row, Q c.candidates → Q ((admitRow c row).candidates))
    (rows : List Row) (c : ConstituencyRecord) (h : Q c.candidates) :
    Q ((rows.foldl admitRow c).candidates) := by
  induction rows generalizing c with
  | nil => exact h
  | cons r rs ih =>
    rw [List.foldl_cons]
    exact ih _ (hstep c r h)

lemma processTable_pres {Q : List CandidateRecord → Prop}
    (hstep : ∀ c row, Q c.candidates → Q ((admitRow c row).candidates))
    (t : List Row) (c : ConstituencyRecord) (h : Q c.candidates) :
    Q ((processTable c t).candidates) := by
  unfold processTable
  split
  · exact h
  · exact foldl_admit_pres hstep _ _ h

lemma processTables_pres {Q : List CandidateRecord → Prop}
    (hstep : ∀ c row, Q c.candidates → Q ((admitRow c row).candidates))
    (ts : List (List Row)) (c : ConstituencyRecord) (h : Q c.candidates) :
    Q ((processTables c ts).candidates) := by
  unfold processTables
  induction ts generalizing c with
  | nil => exact h
  | cons t rest ih =>
    rw [List.foldl_cons]
    exact ih _ (processTable_pres hstep _ _ h)

/-- Any property of candidate lists that holds for the empty list and is
preserved by `admitRow` holds for every constituency in the output. -/
lemma extract_inv {Q : List CandidateRecord → Prop}
    (hstep : ∀ c row, Q c.candidates → Q ((admitRow c row).candidates))
    (hnil : Q []) :
    ∀ (pages : List Page) (res : List ConstituencyRecord)
      (cur : Option ConstituencyRecord),
      (∀ r ∈ res, Q r.candidates) → (∀ r, cur = some r → Q r.candidates) →
      ∀ c ∈ finalizeState (List.foldl stepPage (res, cur) pages), Q c.candidates := by
  intro pages
  induction pages with
  | nil =>
    intro res cur hres hcur c hc
    unfold finalizeState at hc
    simp only [List.foldl_nil] at hc
    rcases List.mem_append.mp hc with hc | hc
    · exact hres _ hc
    · rcases cur with _ | r
      · simp [Option.toList] at hc
      · simp [Option.toList] at hc
        subst hc
        exact hcur _ rfl
  | cons pg rest ih =>
    intro res cur hres hcur c hc
    rw [List.foldl_cons, stepPage_eq] at hc
    by_cases hact : pageActive pg = true
    · rw [if_pos hact] at hc
      rcases hh : pageHeader pg with _ | info
      · rw [hh] at hc
        rcases cur with _ | c0
        · exact ih res none hres (by intro r h; cases h) c hc
        · refine ih res (some (processTables c0 pg.tables)) hres ?_ c hc
          intro r h
          rw [Option.some.injEq] at h
          rw [← h]
          exact processTables_pres hstep _ _ (hcur c0 rfl)
      · rw [hh] at hc
        refine ih (res ++ cur.toList)
          (some (processTables (newConstituency info) pg.tables)) ?_ ?_ c hc
        · intro r hr
          rcases List.mem_append.mp hr with hr | hr
          · exact hres _ hr
          · rcases cur with _ | c0
            · simp [Option.toList] at hr
            · simp [Option.toList] at hr
              subst hr
              exact hcur _ rfl
        · intro r h
          rw [Option.some.injEq] at h
          rw [← h]
          exact processTables_pres hstep _ _ hnil
    · rw [if_neg hact] at hc
      exact ih res cur hres hcur c hc

/-- Along the page fold, the header parts of the flushed output are the
initial state's headers followed by the headers still to be discovered. -/
lemma finalize_foldl_headers :
    ∀ (pages : List Page) (res : List ConstituencyRecord)
      (cur : Option ConstituencyRecord),
      (finalizeState (List.foldl stepPage (res, cur) pages)).map headerOf
        = res.map headerOf ++ cur.toList.map headerOf ++ discoveredHeaders pages := by
  intro pages
  induction pages with
  | nil =>
    intro res cur
    unfold finalizeState discoveredHeaders
    simp
  | cons pg rest ih =>
    intro res cur
    rw [List.foldl_cons, stepPage_eq]
    by_cases hact : pageActive pg = true
    · rw [if_pos hact]
      rcases hh : pageHeader pg with _ | info
      · have hdisc : discoveredHeaders (pg :: rest) = discoveredHeaders rest := by
          simp [discoveredHeaders, hh]
        rw [hdisc]
        rcases cur with _ | c0
        · exact ih res none
        · have h2 := ih res (some (processTables c0 pg.tables))
          simpa [headerOf_processTables] using h2
      · have hdisc : discoveredHeaders (pg :: rest) = info :: discoveredHeaders rest := by
          simp [discoveredHeaders, hh]
        rw [hdisc]
        have h2 := ih (res ++ cur.toList)
          (some (processTables (newConstituency info) pg.tables))
        simpa [headerOf_processTables, headerOf_newConstituency, List.append_assoc]
          using h2
    · rw [if_neg hact]
      have hdisc : discoveredHeaders (pg :: rest) = discoveredHeaders rest := by
        simp [discoveredHeaders, pageHeader_of_inactive (by simpa using hact)]
      rw [hdisc]
      exact ih res cur

/-! ## Lemmas about the header matcher -/

lemma tailAfterName_nonneg {l : List Char} {e : Int}
    (h : tailAfterName l = some e) : 0 ≤ e := by
  unfold tailAfterName at h
  split at h
  · split at h
    · cases h
    · split at h
      · cases h
      · split at h
        · rw [Option.some.injEq] at h
          rw [← h]
          exact Int.ofNat_nonneg _
        · cases h
  · cases h

lemma lazyName_nonneg :
    ∀ {l acc nm : List Char} {e : Int}, lazyName acc l = some (nm, e) → 0 ≤ e := by
  intro l
  induction l with
  | nil => intro acc nm e h; cases h
  | cons c rest ih =>
    intro acc nm e h
    unfold lazyName at h
    split at h
    · cases h
    · split at h
      · rename_i e2 ht
        rw [Option.some.injEq, Prod.mk.injEq] at h
        rw [← h.2]
        exact tailAfterName_nonneg ht
      · exact ih h

lemma wsBacktrack_nonneg {l : List Char} :
    ∀ {w : Nat} {nm : List Char} {e : Int}, wsBacktrack l w = some (nm, e) → 0 ≤ e := by
  intro w
  induction w with
  | zero => intro nm e h; exact lazyName_nonneg h
  | succ w ih =>
    intro nm e h
    unfold wsBacktrack at h
    split at h
    · rename_i r hr
      rcases r with ⟨nm2, e2⟩
      rw [Option.some.injEq, Prod.mk.injEq] at h
      rw [← h.2]
      exact lazyName_nonneg hr
    · exact ih h

lemma matchAt_nonneg {l : List Char} {info : ConstituencyInfo}
    (h : matchAt l = some info) : 0 ≤ info.constituency_number := by
  unfold matchAt at h
  split at h
  · cases h
  · split at h
    · cases h
    · split at h
      · split at h
        · cases h
        · rw [Option.some.injEq] at h
          rw [← h]
          exact Int.ofNat_nonneg _
      · cases h

lemma searchHeader_nonneg :
    ∀ {l : List Char} {info : ConstituencyInfo},
      searchHeader l = some info → 0 ≤ info.constituency_number := by
  intro l
  induction l with
  | nil => intro info h; cases h
  | cons c rest ih =>
    intro info h
    unfold searchHeader at h
    split at h
    · rename_i info2 hm
      rw [Option.some.injEq] at h
      rw [← h]
      exact matchAt_nonneg hm
    · exact ih h

lemma extract_info_nonneg {t : String} {info : ConstituencyInfo}
    (h : extract_constituency_info t = some info) : 0 ≤ info.constituency_number :=
  searchHeader_nonneg h

lemma discoveredHeaders_nonneg :
    ∀ {pages : List Page} {info : ConstituencyInfo},
      info ∈ discoveredHeaders pages → 0 ≤ info.constituency_number := by
  intro pages
  induction pages with
  | nil => intro info h; cases h
  | cons pg rest ih =>
    intro info h
    unfold discoveredHeaders at h
    split at h
    · rename_i info2 hh
      rcases List.mem_cons.mp h with h | h
      · subst h
        unfold pageHeader at hh
        split at hh
        · cases hh
        · split at hh
          · cases hh
          · exact extract_info_nonneg hh
      · exact ih h
    · exact ih h

lemma expectLit_prefix :
    ∀ {p l r : List Char}, expectLit p l = some r → p <+: l := by
  intro p
  induction p with
  | nil => intro l r h; exact List.nil_prefix
  | cons c cs ih =>
    intro l r h
    rcases l with _ | ⟨x, xs⟩
    · cases h
    · unfold expectLit at h
      split at h
      · rename_i hxc
        subst hxc
        obtain ⟨t, ht⟩ := ih h
        exact ⟨t, by rw [List.cons_append, ht]⟩
      · cases h

lemma matchAt_keyword {l : List Char} {info : ConstituencyInfo}
    (h : matchAt l = some info) : "Constituency:".toList <+: l := by
  unfold matchAt at h
  split at h
  · cases h
  · rename_i l1 he
    exact expectLit_prefix he

lemma searchHeader_keyword :
    ∀ {l : List Char} {info : ConstituencyInfo},
      searchHeader l = some info → "Constituency:".toList <:+: l := by
  intro l
  induction l with
  | nil => intro info h; cases h
  | cons c rest ih =>
    intro info h
    unfold searchHeader at h
    split at h
    · rename_i info2 hm
      exact List.IsPrefix.isInfix (matchAt_keyword hm)
    · exact List.infix_cons (ih h)

/-! ## Case analysis of the percentage fields -/

lemma coerceOptFloat_some_cases {s : String} {f : Option String}
    (h : coerceOptFloat (some s) = some f) :
    ((s.isEmpty = true ∨ (stripPct s).isEmpty = true) ∧ f = none)
    ∨ (s.isEmpty = false ∧ (stripPct s).isEmpty = false ∧ pyFloatOk s = true
        ∧ f = some s) := by
  simp only [coerceOptFloat] at h
  by_cases h1 : s.isEmpty = true
  · rw [h1] at h
    simp only [Bool.not_true, Bool.false_and, Bool.false_eq_true, if_false,
      Option.some.injEq] at h
    exact Or.inl ⟨Or.inl h1, h.symm⟩
  · rw [Bool.not_eq_true] at h1
    by_cases h2 : (stripPct s).isEmpty = true
    · rw [h1, h2] at h
      simp only [Bool.not_true, Bool.and_false, Bool.false_eq_true, if_false,
        Option.some.injEq] at h
      exact Or.inl ⟨Or.inr h2, h.symm⟩
    · rw [Bool.not_eq_true] at h2
      rw [h1, h2] at h
      simp only [Bool.not_false, Bool.and_self, if_true] at h
      by_cases h3 : pyFloatOk s = true
      · rw [if_pos h3, Option.some.injEq] at h
        exact Or.inr ⟨h1, h2, h3, h.symm⟩
      · rw [if_neg h3] at h
        cases h

lemma pct_field_spec {c : Option String} {f : Option String}
    (h : coerceOptFloat c = some f) :
    (c = none → f = none)
    ∧ (∀ s, c = some s →
        ((s.isEmpty = true ∨ (stripPct s).isEmpty = true) → f = none)
        ∧ (s.isEmpty = false → (stripPct s).isEmpty = false →
            f = some s ∧ pyFloatOk s = true)) := by
  constructor
  · intro e
    subst e
    simp only [coerceOptFloat, Option.some.injEq] at h
    exact h.symm
  · intro s hs
    subst hs
    rcases coerceOptFloat_some_cases h with ⟨hcase, hf⟩ | ⟨h1, h2, h3, hf⟩
    · constructor
      · intro _
        exact hf
      · intro he1 he2
        rcases hcase with hc | hc
        · rw [he1] at hc; cases hc
        · rw [he2] at hc; cases hc
    · constructor
      · intro hcase
        rcases hcase with hc | hc
        · rw [h1] at hc; cases hc
        · rw [h2] at hc; cases hc
      · intro _ _
        exact ⟨hf, h3⟩

/-! ## Stability of the parser under changes to pure string cells -/

lemma cellGet_set_ne {row : Row} {i j : Nat} (hij : i ≠ j) (v : Option String) :
    cellGet (row.set i v) j = cellGet row j := by
  unfold cellGet
  rw [List.get?_eq_getElem?, List.get?_eq_getElem?, List.getElem?_set_ne hij]

lemma cellD_set_ne {row : Row} {i j : Nat} (hij : i ≠ j) (v : Option String) :
    cellD (row.set i v) j = cellD row j := by
  have hg := @cellGet_set_ne row i j hij v
  unfold cellGet at hg
  unfold cellD
  rw [hg]

lemma badCell0_set {row : Row} {i : Nat} (v : Option String) (hi : i ≠ 0) :
    badCell0 (row.set i v) = badCell0 row := by
  unfold badCell0
  rw [cellD_set_ne hi]

lemma rowCoercionError_set {row : Row} {i : Nat} (v : Option String)
    (h0 : i ≠ 0) (h3 : i ≠ 3) (h7 : i ≠ 7) (h8 : i ≠ 8) (h9 : i ≠ 9)
    (h10 : i ≠ 10) (h11 : i ≠ 11) (h12 : i ≠ 12) (h13 : i ≠ 13) (h14 : i ≠ 14) :
    rowCoercionError (row.set i v) = rowCoercionError row := by
  unfold rowCoercionError
  rw [cellD_set_ne h0, cellD_set_ne h3, cellGet_set_ne h7, cellD_set_ne h7,
    cellGet_set_ne h8, cellD_set_ne h8, cellGet_set_ne h9, cellD_set_ne h9,
    cellGet_set_ne h10, cellD_set_ne h10, cellGet_set_ne h11, cellD_set_ne h11,
    cellGet_set_ne h12, cellD_set_ne h12, cellGet_set_ne h13, cellD_set_ne h13,
    cellD_set_ne h14, List.length_set]

/-- Overwriting one of the pure string cells (1, 2, 4, 5, 6) can never turn
an accepted row into a rejected one. -/
lemma parse_isSome_set {row : Row} {i : Nat} (v : Option String)
    (hi : i = 1 ∨ i = 2 ∨ i = 4 ∨ i = 5 ∨ i = 6)
    (h : (parse_table_row row).isSome = true) :
    (parse_table_row (row.set i v)).isSome = true := by
  have hne0 : i ≠ 0 := by rcases hi with rfl | rfl | rfl | rfl | rfl <;> decide
  have hne3 : i ≠ 3 := by rcases hi with rfl | rfl | rfl | rfl | rfl <;> decide
  have hne7 : i ≠ 7 := by rcases hi with rfl | rfl | rfl | rfl | rfl <;> decide
  have hne8 : i ≠ 8 := by rcases hi with rfl | rfl | rfl | rfl | rfl <;> decide
  have hne9 : i ≠ 9 := by rcases hi with rfl | rfl | rfl | rfl | rfl <;> decide
  have hne10 : i ≠ 10 := by rcases hi with rfl | rfl | rfl | rfl | rfl <;> decide
  have hne11 : i ≠ 11 := by rcases hi with rfl | rfl | rfl | rfl | rfl <;> decide
  have hne12 : i ≠ 12 := by rcases hi with rfl | rfl | rfl | rfl | rfl <;> decide
  have hne13 : i ≠ 13 := by rcases hi with rfl | rfl | rfl | rfl | rfl <;> decide
  have hne14 : i ≠ 14 := by rcases hi with rfl | rfl | rfl | rfl | rfl <;> decide
  have hnot : ¬ parse_table_row row = none := by
    intro e
    rw [e] at h
    cases h
  rw [parse_none_iff] at hnot
  push_neg at hnot
  obtain ⟨hl, hb, hr⟩ := hnot
  have hnot2 : ¬ parse_table_row (row.set i v) = none := by
    rw [parse_none_iff]
    push_neg
    refine ⟨by rwa [List.length_set], ?_, ?_⟩
    · rw [badCell0_set v hne0]
      exact hb
    · rw [rowCoercionError_set v hne0 hne3 hne7 hne8 hne9 hne10 hne11 hne12
        hne13 hne14]
      exact hr
  exact Option.ne_none_iff_isSome.mp hnot2

/-- `admitRow` preserves pairwise-distinct serial numbers: a new
candidate is appended only when no stored candidate shares its serial
number. -/
lemma admitRow_pairwise {c : ConstituencyRecord} {row : Row}
    (h : c.candidates.Pairwise (fun a b => a.serial_number ≠ b.serial_number)) :
    (admitRow c row).candidates.Pairwise
      (fun a b => a.serial_number ≠ b.serial_number) := by
  rcases admitRow_candidates c row with he | ⟨cand, hp, hs, ha, he⟩
  · rw [he]; exact h
  · rw [he, List.pairwise_append]
    refine ⟨h, List.pairwise_singleton _ _, ?_⟩
    intro a hae b hbe
    simp only [List.mem_singleton] at hbe
    subst hbe
    have hne := List.any_eq_false.mp ha a hae
    intro heq
    rw [heq] at hne
    simp at hne

/-- `admitRow` preserves that every stored candidate has a present,
non-negative serial number. -/
lemma admitRow_serials {c : ConstituencyRecord} {row : Row}
    (h : ∀ x ∈ c.candidates, ∃ n : Int, x.serial_number = some n ∧ 0 ≤ n) :
    ∀ x ∈ (admitRow c row).candidates,
      ∃ n : Int, x.serial_number = some n ∧ 0 ≤ n := by
  rcases admitRow_candidates c row with he | ⟨cand, hp, hs, ha, he⟩
  · rw [he]; exact h
  · rw [he]
    intro x hx
    rcases List.mem_append.mp hx with hx | hx
    · exact h x hx
    · simp only [List.mem_singleton] at hx
      subst hx
      rcases parse_serial_nonneg hp with hnone | hsome
      · rw [hnone] at hs; cases hs
      · exact hsome

/-- A parsed row whose serial number is already present in the record is
discarded: `admitRow` leaves the record unchanged, so the
first-encountered candidate is retained. -/
lemma admitRow_discard {c2 : ConstituencyRecord} {row : Row}
    {cand : CandidateRecord} (hp : parse_table_row row = some cand)
    (ha : (c2.candidates.any fun e => e.serial_number == cand.serial_number)
      = true) :
    admitRow c2 row = c2 := by
  rcases hs : cand.serial_number with _ | n
  · simp [admitRow, hp, hs]
  · rw [hs] at ha
    simp [admitRow, hp, hs, ha]

/-- `admitRow` only ever appends: candidates already admitted stay, in
place and unmodified. -/
lemma admitRow_prefix (c2 : ConstituencyRecord) (row : Row) :
    c2.candidates <+: (admitRow c2 row).candidates := by
  rcases admitRow_candidates c2 row with he | ⟨cand, hp, hs, ha, he⟩
  · rw [he]
  · rw [he]
    exact ⟨[cand], rfl⟩

/-! ## The claims -/

/-- C1.  The claim says a vote-count cell that is all digits after
stripping commas parses to the comma-stripped integer, so `"12,345"`
yields `12345` and not a rejection.  The code checks the comma-stripped
text in the guard but applies `int` to the raw cell, so `int("12,345")`
raises `ValueError` and the whole row is rejected: with `"12,345"` in
cell 7 of an otherwise valid row, the parser returns `None`, while the
same row with a plain digit string is accepted. -/
theorem C1_comma_vote_rejected :
    pyIsDigit (stripCommas "12,345") = true
    ∧ pyInt "12,345" = none
    ∧ parse_table_row rowComma = none
    ∧ (parse_table_row sampleRow).isSome = true := by
  decide

/-- C2 (counterexample).  In the two-page scenario document, the first
constituency ends with zero candidates, not one: the table's single data
row is among the first two rows, which the extractor skips
unconditionally. -/
theorem C2_counterexample :
    (extract_pdf_to_json scenarioDoc).constituencies.map
        (fun c => (c.constituency_number, c.candidates.length))
      = [(1, 0), (2, 0)] := by
  decide

/-- C2 (amended).  The scenario document yields exactly two
constituencies, in page order, each with zero candidates; the data row of
page 1 is itself a valid candidate row, but it falls within the two
always-skipped table header rows. -/
theorem C2_scenario :
    (extract_pdf_to_json scenarioDoc).constituencies.map
        (fun c => (c.constituency_number, c.constituency_name,
                   c.total_electors, c.candidates.length))
      = [(1, "Alpha", 100, 0), (2, "Beta", 200, 0)]
    ∧ (parse_table_row sampleRow).isSome = true := by
  decide

/-- C3 (counterexample).  A percentage cell that is non-empty after
stripping commas, percent signs and dashes need not yield a float: with
`"abc"` in cell 12 of an otherwise valid row, `float("abc")` raises and
the whole row is rejected. -/
theorem C3_counterexample :
    (stripPct "abc").isEmpty = false
    ∧ parse_table_row rowAbc = none
    ∧ (10 ≤ rowAbc.length) := by
  decide

/-- C3 (amended).  In every accepted row, each percentage field is absent
when the cell is `None`, empty, or empty after stripping commas, `%` and
`-`; when the stripped cell is non-empty, the field holds the value of
`float` on the raw cell text, which is then necessarily a valid float
literal (otherwise the row would have been rejected).  Cell 14 is only
read when the row has more than 14 cells. -/
theorem C3_pct_fields (row : Row) (cand : CandidateRecord)
    (h : parse_table_row row = some cand) :
    (cellD row 12 = none → cand.percentage_of_votes.over_total_electors = none)
    ∧ (∀ s, cellD row 12 = some s →
        ((s.isEmpty = true ∨ (stripPct s).isEmpty = true) →
          cand.percentage_of_votes.over_total_electors = none)
        ∧ (s.isEmpty = false → (stripPct s).isEmpty = false →
            cand.percentage_of_votes.over_total_electors = some s
            ∧ pyFloatOk s = true))
    ∧ (cellD row 13 = none → cand.percentage_of_votes.over_total_votes_polled = none)
    ∧ (∀ s, cellD row 13 = some s →
        ((s.isEmpty = true ∨ (stripPct s).isEmpty = true) →
          cand.percentage_of_votes.over_total_votes_polled = none)
        ∧ (s.isEmpty = false → (stripPct s).isEmpty = false →
            cand.percentage_of_votes.over_total_votes_polled = some s
            ∧ pyFloatOk s = true))
    ∧ (¬ row.length > 14 → cand.percentage_of_votes.over_total_valid_votes = none)
    ∧ (row.length > 14 →
        (cellD row 14 = none → cand.percentage_of_votes.over_total_valid_votes = none)
        ∧ (∀ s, cellD row 14 = some s →
            ((s.isEmpty = true ∨ (stripPct s).isEmpty = true) →
              cand.percentage_of_votes.over_total_valid_votes = none)
            ∧ (s.isEmpty = false → (stripPct s).isEmpty = false →
                cand.percentage_of_votes.over_total_valid_votes = some s
                ∧ pyFloatOk s = true))) := by
  obtain ⟨-, -, -, -, -, -, -, -, -, -, -, -, -, h12, h13, h14⟩ := parse_some_spec h
  have s12 := pct_field_spec h12
  have s13 := pct_field_spec h13
  refine ⟨s12.1, s12.2, s13.1, s13.2, ?_, ?_⟩
  · intro hle
    rw [if_neg hle] at h14
    exact h14
  · intro hgt
    rw [if_pos hgt] at h14
    have s14 := pct_field_spec h14
    exact ⟨s14.1, s14.2⟩

/-- C3 (witness). -/
theorem C3_pct_fields_witness :
    sampleCand.percentage_of_votes.over_total_electors = some "1.0"
    ∧ pyFloatOk "1.0" = true := by
  have h := C3_pct_fields sampleRow sampleCand (by decide)
  exact (h.2.1 "1.0" (by decide)).2 (by decide) (by decide)

/-- C4.  Every started constituency record is flushed into the output
exactly once — at the next header match or at document end — and the
output lists constituencies in discovery order: the header parts of the
output are exactly the sequence of header matches over the pages. -/
theorem C4_flush_order (pages : List Page) :
    (extract_pdf_to_json pages).constituencies.map headerOf
      = discoveredHeaders pages := by
  have h := finalize_foldl_headers pages [] none
  simpa using h

/-- C5.  Within every constituency of the output, candidates are unique
by serial number, and deduplication is first-wins: a successfully parsed
row whose serial number is already present in the active record is
discarded outright (`admitRow` is the identity on it), and admission only
ever appends, so the first-encountered candidate for each serial number
is retained in place and later duplicate rows change nothing. -/
theorem C5_serials_unique (pages : List Page) (c : ConstituencyRecord)
    (hc : c ∈ (extract_pdf_to_json pages).constituencies) :
    c.candidates.Pairwise (fun a b => a.serial_number ≠ b.serial_number)
    ∧ (∀ (c2 : ConstituencyRecord) (row : Row) (cand : CandidateRecord),
        parse_table_row row = some cand →
        (c2.candidates.any fun e => e.serial_number == cand.serial_number)
          = true →
        admitRow c2 row = c2)
    ∧ (∀ (c2 : ConstituencyRecord) (row : Row),
        c2.candidates <+: (admitRow c2 row).candidates) := by
  refine ⟨?_, ?_, ?_⟩
  · exact @extract_inv
      (fun cs => cs.Pairwise (fun a b => a.serial_number ≠ b.serial_number))
      (fun c2 row hq => admitRow_pairwise hq) List.Pairwise.nil
      pages [] none (by intro r hr; cases hr) (by intro r hr; cases hr) c hc
  · intro c2 row cand hp ha
    exact admitRow_discard hp ha
  · intro c2 row
    exact admitRow_prefix c2 row

/-- C5 (witness).  `dupSerialDoc` carries two parsing rows with serial
number 7: the output retains only the first-encountered candidate, its
serial numbers are duplicate-free, and feeding the duplicate row to the
resulting record again is the identity. -/
theorem C5_serials_unique_witness :
    ((extract_pdf_to_json dupSerialDoc).constituencies.headD
        emptyCRec).candidates.map
        (fun cd => (cd.serial_number, cd.candidate_name))
      = [(some 7, "CAND ONE")]
    ∧ ((extract_pdf_to_json dupSerialDoc).constituencies.headD
        emptyCRec).candidates.Pairwise
        (fun a b => a.serial_number ≠ b.serial_number)
    ∧ admitRow
        ((extract_pdf_to_json dupSerialDoc).constituencies.headD emptyCRec)
        rowDup2
      = (extract_pdf_to_json dupSerialDoc).constituencies.headD emptyCRec := by
  have h := C5_serials_unique dupSerialDoc
    ((extract_pdf_to_json dupSerialDoc).constituencies.headD emptyCRec)
    (by decide)
  refine ⟨by decide, h.1, ?_⟩
  exact h.2.1 _ rowDup2 ((parse_table_row rowDup2).getD emptyCand)
    (by decide) (by decide)

/-- C6 (counterexample).  Constituency numbers need be neither positive
nor unique: a document whose two pages both carry the header number `0`
produces two records, both numbered `0`. -/
theorem C6_counterexample :
    (extract_pdf_to_json dupHeaderDoc).constituencies.map
        (fun c => c.constituency_number) = [0, 0]
    ∧ (extract_pdf_to_json dupHeaderDoc).constituencies.length = 2 := by
  decide

/-- C6 (amended).  Every constituency number in the output is a
non-negative integer parsed from the header's digits; the extractor
enforces neither positivity (the digits may be `0`) nor uniqueness (equal
header numbers produce distinct records). -/
theorem C6_number_nonneg (pages : List Page) (c : ConstituencyRecord)
    (hc : c ∈ (extract_pdf_to_json pages).constituencies) :
    0 ≤ c.constituency_number := by
  have hmap := finalize_foldl_headers pages [] none
  simp only [List.map_nil, Option.toList_none, List.nil_append] at hmap
  have hmem : headerOf c ∈ discoveredHeaders pages := by
    rw [← hmap]
    exact List.mem_map_of_mem _ hc
  exact discoveredHeaders_nonneg hmem

/-- C6 (witness). -/
theorem C6_number_nonneg_witness :
    0 ≤ ((extract_pdf_to_json dupHeaderDoc).constituencies.headD
      emptyCRec).constituency_number :=
  C6_number_nonneg dupHeaderDoc _ (by decide)

/-- C7 (counterexample).  An admitted candidate's serial number need not
be positive: a data row with `"0"` in cell 0 is admitted with serial
number `0`. -/
theorem C7_counterexample :
    (extract_pdf_to_json serial0Doc).constituencies.map
        (fun c => c.candidates.map (fun cd => cd.serial_number))
      = [[some 0]] := by
  decide

/-- C7 (amended).  Every candidate admitted into a constituency record
has a present serial number, and that serial number is a non-negative
integer (the all-digits guard admits `"0"`); rows whose serial number is
absent are never admitted. -/
theorem C7_serial_present (pages : List Page) (c : ConstituencyRecord)
    (cand : CandidateRecord) (hc : c ∈ (extract_pdf_to_json pages).constituencies)
    (hcand : cand ∈ c.candidates) :
    ∃ n : Int, cand.serial_number = some n ∧ 0 ≤ n := by
  exact @extract_inv
    (fun cs => ∀ x ∈ cs, ∃ n : Int, x.serial_number = some n ∧ 0 ≤ n)
    (fun c2 row hq => admitRow_serials hq)
    (by intro x hx; cases hx)
    pages [] none (by intro r hr; cases hr) (by intro r hr; cases hr)
    c hc cand hcand

/-- C7 (witness). -/
theorem C7_serial_present_witness :
    ∃ n : Int,
      (((extract_pdf_to_json serial0Doc).constituencies.headD
          emptyCRec).candidates.headD emptyCand).serial_number = some n
      ∧ 0 ≤ n :=
  C7_serial_present serial0Doc
    ((extract_pdf_to_json serial0Doc).constituencies.headD emptyCRec)
    (((extract_pdf_to_json serial0Doc).constituencies.headD
        emptyCRec).candidates.headD emptyCand)
    (by decide) (by decide)

/-- C8.  The header detector returns the first match of the literal
pattern, with the name trimmed and the two numbers parsed in base 10: the
example header yields number 12, name `Vijayawada`, electors 1500000, and
any text that does not contain the keyword `Constituency:` yields no
match. -/
theorem C8_header_detector :
    extract_constituency_info
        "Constituency: 12 . Vijayawada ( Total Electors 1500000)"
      = some { constituency_number := 12, constituency_name := "Vijayawada",
               total_electors := 1500000 }
    ∧ ∀ t : String, ¬ ("Constituency:".toList <:+: t.toList) →
        extract_constituency_info t = none := by
  constructor
  · decide
  · intro t hnk
    rcases he : extract_constituency_info t with _ | info
    · rfl
    · exact absurd (searchHeader_keyword he) hnk

/-- C8 (witness). -/
theorem C8_header_detector_witness :
    extract_constituency_info "no constituency header on this page" = none :=
  C8_header_detector.2 "no constituency header on this page" (by decide)

/-- C9.  The row parser is total and rejects exactly under the three
rules, in order: fewer than 10 cells; cell 0 absent or a header/footer
marker after trimming and uppercasing; a raised cell access or numeric
coercion.  A rejected row leaves the accumulating constituency unchanged,
so no failure affects subsequent rows. -/
theorem C9_reject_rules (row : Row) (c : ConstituencyRecord) :
    (parse_table_row row = none ↔
      row.length < 10 ∨ badCell0 row = true ∨ rowCoercionError row = true)
    ∧ (parse_table_row row = none → admitRow c row = c) := by
  refine ⟨parse_none_iff row, ?_⟩
  intro h
  unfold admitRow
  rw [h]

/-- C9 (witness). -/
theorem C9_reject_rules_witness :
    (parse_table_row labelRow = none ↔
      labelRow.length < 10 ∨ badCell0 labelRow = true
      ∨ rowCoercionError labelRow = true)
    ∧ (parse_table_row labelRow = none → admitRow emptyCRec labelRow = emptyCRec) :=
  C9_reject_rules labelRow emptyCRec

/-- C10.  In every accepted row, a `None` cell in position 1, 2, 4, 5 or
6 yields the empty string for the corresponding field, and overwriting
any of those cells with `None` never turns an accepted row into a
rejected one. -/
theorem C10_blank_strings (row : Row) (cand : CandidateRecord)
    (h : parse_table_row row = some cand) :
    (cellD row 1 = none → cand.candidate_name = "")
    ∧ (cellD row 2 = none → cand.gender = "")
    ∧ (cellD row 4 = none → cand.category = "")
    ∧ (cellD row 5 = none → cand.party = "")
    ∧ (cellD row 6 = none → cand.symbol = "")
    ∧ ∀ i, (i = 1 ∨ i = 2 ∨ i = 4 ∨ i = 5 ∨ i = 6) →
        (parse_table_row (row.set i none)).isSome = true := by
  obtain ⟨-, -, hname, hgender, -, hcat, hparty, hsym, -⟩ := parse_some_spec h
  refine ⟨?_, ?_, ?_, ?_, ?_, ?_⟩
  · intro e; rw [hname, e]; rfl
  · intro e; rw [hgender, e]; rfl
  · intro e; rw [hcat, e]; rfl
  · intro e; rw [hparty, e]; rfl
  · intro e; rw [hsym, e]; rfl
  · intro i hi
    exact parse_isSome_set none hi (by rw [h]; rfl)

/-- C10 (witness). -/
theorem C10_blank_strings_witness :
    ((parse_table_row rowNulls).getD emptyCand).candidate_name = ""
    ∧ (parse_table_row (rowNulls.set 1 none)).isSome = true := by
  have h := C10_blank_strings rowNulls ((parse_table_row rowNulls).getD emptyCand)
    (by decide)
  exact ⟨h.1 (by decide), h.2.2.2.2.2 1 (Or.inl rfl)⟩

end ElectionExtract
